import Mathlib

/-!
Shallow embedding of `src/components/term.rs` (ragout): the Term → Container → Text
layout/addressing core, with its placement, focus and introspection operations.

Modelling conventions:
* Rust `u8`/`u16` quantities are modelled as `Nat`.  Arithmetic is exact except where
  the source's wrapping is load-bearing for an allocator (`assign_*_id`, which wrap
  mod 256 as released Rust does); subtraction is `Nat` truncated subtraction.  Every
  concrete statement proved below stays in ranges where the two semantics agree.
* Fallible Rust code returns `Result`, modelled as `Except`; a Rust `panic` (an
  `unwrap` on `None`) is modelled by an outer `Option` whose `none` is the panic.
* Mutating methods on `&mut self` become functions `Term → ... → Term × result`.
* Types and functions of this repository that live outside the measured source file
  (the geometry resolver in `space`, the `Container`/`Text` constructors and methods,
  the meta builders) are modelled from the spec; each such definition's doc comment
  starts with `Modelled from the spec:`.
-/

set_option linter.unusedVariables false

namespace Ragout

/-- Two-byte Container address `[term_id, container_id]`. -/
structure Id2 where
  b0 : Nat
  b1 : Nat
  deriving DecidableEq, Repr

/-- Three-byte Text address `[term_id, container_id, item_id]`. -/
structure Id3 where
  b0 : Nat
  b1 : Nat
  b2 : Nat
  deriving DecidableEq, Repr

/-- Modelled from the spec: property values (mapping name → value); the concrete
`Property` type lives outside the measured file, only its container matters here. -/
abbrev Property := String

/-- Modelled from the spec: the `Layout` collaborator type is outside the measured
file and none of its structure is used by the operations modelled here. -/
inductive Layout where
  | default
  deriving DecidableEq, Repr

/-- Modelled from the spec: the `Polygon` shape argument; it is accepted and ignored
by every placement operation in the measured file. -/
inductive Polygon where
  | rect
  deriving DecidableEq, Repr

/-- Border style: none, uniform character, or manually specified. -/
inductive Border where
  | none
  | uniform (ch : Char)
  | manual (hz vt : Char)
  deriving DecidableEq, Repr

/-- Whether the border is a manually-specified one (`Border::Manual { .. }`). -/
def Border.isManual : Border → Bool
  | .manual _ _ => true
  | _ => false

/-- Padding style. -/
inductive Padding where
  | none
  | uniform (n : Nat)
  deriving DecidableEq, Repr

/-- Anchor position on one axis: start / center / end. -/
inductive Pos where
  | Start
  | Center
  | End
  deriving DecidableEq, Repr

/-- Declared area intent: absolute size, fill the parent, or percentage of parent. -/
inductive Area where
  | abs (w h : Nat)
  | fill
  | percent (pw ph : Nat)
  deriving DecidableEq, Repr

inductive SpaceError where
  | AreaOutOfBounds
  | OriginOutOfBounds
  deriving DecidableEq, Repr

inductive IdError where
  | IdAlreadyTaken
  deriving DecidableEq, Repr

inductive ComponentTreeError where
  | BadID
  | IDAlreadyExists
  | BoundsNotRespected
  | BadValue
  | SpaceError (e : SpaceError)
  | IdError (e : IdError)
  deriving DecidableEq, Repr

/-- Modelled from the spec: `resolve_extra(border, padding) -> (w_extra, h_extra)` —
the extra width/height consumed by the border (one cell on each side when present)
and the padding. The real `resolve_wh` lives in the `space` module outside the
measured file. -/
def resolve_wh (b : Border) (p : Padding) : Nat × Nat :=
  let bx := match b with
    | .none => 0
    | _ => 2
  let px := match p with
    | .none => 0
    | .uniform n => 2 * n
  (bx + px, bx + px)

/-- Modelled from the spec: `border_fits` — whether a manually specified
border/padding combination is physically representable at the given size. -/
def border_fit (b : Border) (p : Padding) (w h : Nat) : Bool :=
  2 ≤ w && 2 ≤ h

/-- Modelled from the spec: `resolve_anchor` — a start/center/end anchor resolved
against one parent dimension; by convention the leading edge for start/center and
the far edge for end. -/
def Pos.anchor (p : Pos) (d : Nat) : Nat :=
  match p with
  | .Start => 0
  | .Center => d / 2
  | .End => d

/-- Modelled from the spec: `Pos::point` — resolve the horizontal anchor (`self`)
and the vertical anchor against the parent dimensions, giving `[x0, y0]`. -/
def Pos.point (hpos : Pos) (vpos : Pos) (d : Nat × Nat) : Nat × Nat :=
  (hpos.anchor d.1, vpos.anchor d.2)

/-- Modelled from the spec: `Area::unwrap` — resolve the declared area intent
against the parent's usable dimensions. -/
def Area.unwrap (a : Area) (parent : Nat × Nat) : Nat × Nat :=
  match a with
  | .abs w h => (w, h)
  | .fill => parent
  | .percent pw ph => (parent.1 * pw / 100, parent.2 * ph / 100)

/-- Modelled from the spec: `area_conflicts` — the signed penetration on the four
edges `[top, right, bottom, left]` between the candidate rectangle
`(x0, y0, w, h)` and a sibling `(cx0, cy0, cw, ch)`; a value is nonzero in the
overlapping direction exactly when the two rectangles overlap on that side's
axis, so the caller's test `(left > 0 ∨ right < 0) ∧ (top > 0 ∨ bottom < 0)`
holds iff the rectangles overlap on both axes simultaneously. -/
def area_conflicts (x0 y0 w h cx0 cy0 cw ch : Nat) : Int × Int × Int × Int :=
  let top : Int := if cy0 ≤ y0 then (cy0 + ch : Int) - y0 else 0
  let right : Int := if x0 < cx0 then (cx0 : Int) - (x0 + w) else 0
  let bottom : Int := if y0 < cy0 then (cy0 : Int) - (y0 + h) else 0
  let left : Int := if cx0 ≤ x0 then (cx0 + cw : Int) - x0 else 0
  (top, right, bottom, left)

/-- The conflict test applied to `area_conflicts` output, exactly as the source
writes it: `(left > 0 || right < 0) && (top > 0 || bottom < 0)`. -/
def conflicts (x0 y0 w h cx0 cy0 cw ch : Nat) : Bool :=
  let (top, right, bottom, left) := area_conflicts x0 y0 w h cx0 cy0 cw ch
  (left > 0 || right < 0) && (top > 0 || bottom < 0)

/-- Text node: the leaf entity. Field order follows the source struct. -/
structure Text where
  id : Id3
  x0 : Nat
  y0 : Nat
  ax0 : Nat
  ay0 : Nat
  cx : Nat
  cy : Nat
  w : Nat
  h : Nat
  border : Border
  padding : Padding
  value : List (Option Char)
  properties : List (String × Property)
  deriving DecidableEq, Repr

/-- Modelled from the spec: `Text::new(id, x0, y0, ax0, ay0, w, h, value, border,
padding)` — constructs the node with a zero local cursor and no properties. -/
def Text.new (id : Id3) (x0 y0 ax0 ay0 w h : Nat) (value : List (Option Char))
    (border : Border) (padding : Padding) : Text :=
  { id := id, x0 := x0, y0 := y0, ax0 := ax0, ay0 := ay0, cx := 0, cy := 0,
    w := w, h := h, border := border, padding := padding, value := value,
    properties := [] }

/-- Modelled from the spec: `Text::decorate` — the node's content size plus its
border/padding overhead. -/
def Text.decorate (t : Text) : Nat × Nat :=
  let (we, he) := resolve_wh t.border t.padding
  (t.w + we, t.h + he)

/-- Container node: owns an ordered collection of Text nodes. -/
structure Container where
  id : Id2
  x0 : Nat
  y0 : Nat
  w : Nat
  h : Nat
  border : Border
  padding : Padding
  items : List Text
  properties : List (String × Property)
  attributes : List String
  deriving DecidableEq, Repr

/-- Modelled from the spec: `Container::new(id, x0, y0, w, h, border, padding)` —
constructs the container with no items, properties or attributes. -/
def Container.new (id : Id2) (x0 y0 w h : Nat) (border : Border) (padding : Padding) :
    Container :=
  { id := id, x0 := x0, y0 := y0, w := w, h := h, border := border,
    padding := padding, items := [], properties := [], attributes := [] }

/-- Modelled from the spec: `Container::decorate` — content size plus border/padding
overhead. -/
def Container.decorate (c : Container) : Nat × Nat :=
  let (we, he) := resolve_wh c.border c.padding
  (c.w + we, c.h + he)

/-- Modelled from the spec (§4.2 step 4): the candidate content area is too large
for this container's content area. -/
def Container.area_out_of_bounds (c : Container) (wh : Nat × Nat) : Bool :=
  c.w * c.h < wh.1 * wh.2 || wh.1 > c.w || wh.2 > c.h

/-- Modelled from the spec (§4.2 step 4): the candidate origin places the rectangle
outside this container's content area. -/
def Container.origin_out_of_bounds (c : Container) (wh xy : Nat × Nat) : Bool :=
  xy.1 > c.w || xy.2 > c.h || xy.1 + wh.1 > c.w || xy.2 + wh.2 > c.h

/-- Modelled from the spec (§4.2 steps 4–5, "used identically with different parent
scopes" as the Term-level check in the measured file): validate the candidate Text
rectangle (with decoration) against this container's bounds, then against every
sibling for a both-axes overlap; pure validation, first conflict aborts. -/
def Container.assign_valid_text_area (c : Container) (t : Text) :
    Except SpaceError Unit :=
  let (x0, y0) := (t.x0, t.y0)
  let (w, h) := t.decorate
  if c.w * c.h < w * h || x0 > c.w || y0 > c.h || w > c.w || h > c.h
      || x0 + w > c.w || y0 + h > c.h then
    .error .AreaOutOfBounds
  else if c.items.any (fun s => conflicts t.x0 t.y0 t.w t.h s.x0 s.y0 s.w s.h) then
    .error .OriginOutOfBounds
  else
    .ok ()

/-- Modelled from the spec: `calc_text_abs_ori` — a Text node's on-screen origin is
the container's origin plus the container's leading border/padding offset plus the
node's local origin. -/
def calc_text_abs_ori (cid : Id2) (ori : Nat × Nat) (b : Border) (p : Padding)
    (cont : Container) : Nat × Nat :=
  let (we, he) := resolve_wh cont.border cont.padding
  (cont.x0 + we / 2 + ori.1, cont.y0 + he / 2 + ori.2)

/-- Term: one terminal screen/surface, its containers, cursor and focus state. -/
structure Term where
  layout : Layout
  id : Nat
  w : Nat
  h : Nat
  cx : Nat
  cy : Nat
  containers : List Container
  focused : Option Id3
  properties : List (String × Property)
  attributes : List String
  deriving DecidableEq, Repr

/-- `Term::new(id, w, h)` — everything else takes its default value. -/
def Term.new (id : Nat) (w h : Nat) : Term :=
  { layout := .default, id := id, w := w, h := h, cx := 0, cy := 0,
    containers := [], focused := none, properties := [], attributes := [] }

/-- `Term::container_ref` — first container with the given two-byte id. -/
def Term.container_ref (t : Term) (id : Id2) : Option Container :=
  t.containers.find? (fun c => c.id == id)

/-- `Term::has_container` — whether the term has a container with the given id
(an unknown id simply yields `false`). -/
def Term.has_container (t : Term) (id : Id2) : Bool :=
  (t.containers.find? (fun c => c.id == id)).isSome

/-- `Term::input_ref` — the input Text with the given three-byte id, filtered to
the even parity class; `none` when the parent container or the node is missing. -/
def Term.input_ref (t : Term) (id : Id3) : Option Text :=
  match t.container_ref ⟨id.b0, id.b1⟩ with
  | none => none
  | some cont => cont.items.find? (fun i => i.id.b2 % 2 == 0 && i.id == id)

/-- `Term::nonedit_ref` — the nonedit Text with the given id, odd parity class. -/
def Term.nonedit_ref (t : Term) (id : Id3) : Option Text :=
  match t.container_ref ⟨id.b0, id.b1⟩ with
  | none => none
  | some cont => cont.items.find? (fun i => i.id.b2 % 2 != 0 && i.id == id)

/-- `Term::has_input` — whether some container holds an input with this id; when
the parent container does not exist the source logs and returns `false`. -/
def Term.has_input (t : Term) (id : Id3) : Bool :=
  match t.container_ref ⟨id.b0, id.b1⟩ with
  | some cont => (cont.items.find? (fun i => i.id.b2 % 2 == 0 && i.id == id)).isSome
  | none => false

/-- `Term::has_nonedit` — odd-parity analogue of `has_input`. -/
def Term.has_nonedit (t : Term) (id : Id3) : Bool :=
  match t.container_ref ⟨id.b0, id.b1⟩ with
  | some cont => (cont.items.find? (fun i => i.id.b2 % 2 != 0 && i.id == id)).isSome
  | none => false

/-- Modelled from the spec: `is_valid_container_id` (declared outside the measured
file) — true when the two-byte id is already taken by a container of this Term;
the declarative constructor then rejects with an identifier error. -/
def Term.is_valid_container_id (t : Term) (id : Id2) : Bool :=
  t.has_container id

/-- Modelled from the spec: `is_valid_input_id` (declared outside the measured
file) — the parent container exists, the id is not already taken in the input
class, and the item id has input (even) parity. -/
def Term.is_valid_input_id (t : Term) (id : Id3) : Bool :=
  t.has_container ⟨id.b0, id.b1⟩ && !(t.has_input id) && id.b2 % 2 == 0

/-- Modelled from the spec: `is_valid_nonedit_id` — parent exists, id free in the
nonedit class, odd parity. -/
def Term.is_valid_nonedit_id (t : Term) (id : Id3) : Bool :=
  t.has_container ⟨id.b0, id.b1⟩ && !(t.has_nonedit id) && id.b2 % 2 == 1

/-- `Term::assign_valid_container_area` — validate a candidate container's
decorated rectangle against the Term's bounds, then scan all existing containers
for a both-axes overlap (the source folds with a flag `e`, equivalent to `any`);
pure validation, nothing is assigned. -/
def Term.assign_valid_container_area (t : Term) (cont : Container) :
    Except SpaceError Unit :=
  let (x0, y0) := (cont.x0, cont.y0)
  let (w, h) := cont.decorate
  if t.w * t.h < w * h || x0 > t.w || y0 > t.h || w > t.w || h > t.h
      || x0 + w > t.w || y0 + h > t.h then
    .error .AreaOutOfBounds
  else if t.containers.any (fun c => conflicts x0 y0 cont.w cont.h c.x0 c.y0 c.w c.h)
  then
    .error .OriginOutOfBounds
  else
    .ok ()

/-- Append a Text into the first container matching `cid`, as pushing through
`container_mut(..).unwrap().items.push(..)` does. -/
def appendItemFirst : List Container → Id2 → Text → List Container
  | [], _, _ => []
  | c :: rest, cid, tx =>
    if c.id == cid then { c with items := c.items ++ [tx] } :: rest
    else c :: appendItemFirst rest cid tx

/-- `Term::container` — declarative Container constructor: duplicate-id check,
intent resolution (extra, area, anchor with end-correction), manual border fit,
bounds and overlap validation, then commit by append. -/
def Term.container (t : Term) (id : Id2) (vpos hpos : Pos) (shape : Polygon)
    (area : Area) (border : Border) (padding : Padding) :
    Term × Except ComponentTreeError Unit :=
  if t.is_valid_container_id id then
    (t, .error .BadID)
  else
    let (wextra, hextra) := resolve_wh border padding
    let (w, h) := area.unwrap (t.w, t.h)
    let (w, h) := (w - wextra, h - hextra)
    let (x0, y0) := hpos.point vpos (t.w, t.h)
    let x0 := if hpos = Pos.End then x0 - w - wextra else x0
    let y0 := if vpos = Pos.End then y0 - h - hextra else y0
    if border.isManual && !(border_fit border padding t.w t.h) then
      (t, .error .BoundsNotRespected)
    else
      let cont := Container.new id x0 y0 w h border padding
      match t.assign_valid_container_area cont with
      | .error _ => (t, .error .BoundsNotRespected)
      | .ok _ => ({ t with containers := t.containers ++ [cont] }, .ok ())

/-- Modelled from the spec: the opaque Container metadata/builder collaborator,
able to produce a fully-formed Container, trusted to have validated itself. -/
structure ContainerMeta where
  cont : Container
  deriving DecidableEq, Repr

/-- `Term::container_from_meta` — trusts the builder entirely: pushes the
container with no identifier, bounds or overlap check. -/
def Term.container_from_meta (t : Term) (meta : ContainerMeta) : Term :=
  { t with containers := t.containers ++ [meta.cont] }

/-- `Term::push_container` — pre-built insertion of a Container: duplicate-id
check, then full bounds/overlap re-validation; on failure the container is
returned to the caller alongside the error. -/
def Term.push_container (t : Term) (c : Container) :
    Term × Except (Container × ComponentTreeError) Unit :=
  if t.has_container c.id then
    (t, .error (c, .IDAlreadyExists))
  else
    match t.assign_valid_container_area c with
    | .error _ => (t, .error (c, .BoundsNotRespected))
    | .ok _ => ({ t with containers := t.containers ++ [c] }, .ok ())

/-- `Term::push_input` — pre-built insertion of an input Text: only the
existence/parity identifier checks are run (parent exists, id free in the input
class, even parity); no bounds, overlap or capacity validation. -/
def Term.push_input (t : Term) (i : Text) :
    Term × Except (Text × ComponentTreeError) Unit :=
  if !(t.has_container ⟨i.id.b0, i.id.b1⟩) || t.has_input i.id || i.id.b2 % 2 != 0
  then
    (t, .error (i, .BadID))
  else
    ({ t with containers := appendItemFirst t.containers ⟨i.id.b0, i.id.b1⟩ i },
      .ok ())

/-- `Term::push_nonedit` — pre-built insertion of a nonedit Text. The source's
duplicate test consults the input class (`has_input`) rather than the nonedit
class, and rejects even parity; no bounds, overlap or capacity validation. -/
def Term.push_nonedit (t : Term) (ne : Text) :
    Term × Except (Text × ComponentTreeError) Unit :=
  if !(t.has_container ⟨ne.id.b0, ne.id.b1⟩) || t.has_input ne.id
      || ne.id.b2 % 2 == 0 then
    (t, .error (ne, .BadID))
  else
    ({ t with containers := appendItemFirst t.containers ⟨ne.id.b0, ne.id.b1⟩ ne },
      .ok ())

/-- `Term::input` — declarative input Text constructor. Ports the source order of
operations: id validity, intent resolution (note the first anchor resolution is
taken against the candidate's own `[w, h]`), early area/origin bounds checks,
manual border fit, anchor re-resolution against the container with end-correction,
absolute origin, construction with an empty value, sibling validation, commit. -/
def Term.input (t : Term) (id : Id3) (vpos hpos : Pos) (shape : Polygon)
    (area : Area) (border : Border) (padding : Padding) :
    Term × Except ComponentTreeError Unit :=
  if !(t.is_valid_input_id id) then
    (t, .error (.IdError .IdAlreadyTaken))
  else
    match t.container_ref ⟨id.b0, id.b1⟩ with
    | none => (t, .error .BadID)
    | some cont =>
      let contwh := (cont.w, cont.h)
      let (wextra, hextra) := resolve_wh border padding
      let (w, h) := area.unwrap contwh
      let (w, h) := (w - wextra, h - hextra)
      let (x0, y0) := hpos.point vpos (w, h)
      if cont.area_out_of_bounds (w, h) then
        (t, .error (.SpaceError .AreaOutOfBounds))
      else if cont.origin_out_of_bounds (w, h) (x0, y0) then
        (t, .error (.SpaceError .OriginOutOfBounds))
      else if border.isManual && !(border_fit border padding w h) then
        (t, .error .BoundsNotRespected)
      else
        let (x0, y0) := hpos.point vpos contwh
        let x0 := if hpos = Pos.End then x0 - w - wextra else x0
        let y0 := if vpos = Pos.End then y0 - h - hextra else y0
        let (ax0, ay0) := calc_text_abs_ori ⟨id.b0, id.b1⟩ (x0, y0) border padding cont
        let inp := Text.new id x0 y0 ax0 ay0 w h [] border padding
        match cont.assign_valid_text_area inp with
        | .error _ => (t, .error .BoundsNotRespected)
        | .ok _ =>
          ({ t with containers := appendItemFirst t.containers ⟨id.b0, id.b1⟩ inp },
            .ok ())

/-- Modelled from the spec: the opaque input-Text metadata/builder collaborator. -/
structure InputMeta where
  cid : Id2
  text : Text
  deriving DecidableEq, Repr

/-- `Term::input_from_meta` — checks only that the parent container exists, then
pushes the builder's Text with no further validation. -/
def Term.input_from_meta (t : Term) (meta : InputMeta) :
    Term × Except ComponentTreeError Unit :=
  match t.container_ref meta.cid with
  | none => (t, .error .BadID)
  | some _ =>
    ({ t with containers := appendItemFirst t.containers meta.cid meta.text }, .ok ())

/-- `Term::nonedit` — declarative nonedit Text constructor: id validity, intent
resolution, manual border fit, anchor with end-correction, the capacity check
`value.len() > w * h → BadValue`, absolute origin, sibling validation, commit.
Unlike `input` it has no early area/origin bounds checks. -/
def Term.nonedit (t : Term) (id : Id3) (vpos hpos : Pos) (shape : Polygon)
    (area : Area) (border : Border) (padding : Padding)
    (value : List (Option Char)) : Term × Except ComponentTreeError Unit :=
  if !(t.is_valid_nonedit_id id) then
    (t, .error .BadID)
  else
    match t.container_ref ⟨id.b0, id.b1⟩ with
    | none => (t, .error .BadID)
    | some cont =>
      let contwh := (cont.w, cont.h)
      let (wextra, hextra) := resolve_wh border padding
      let (w, h) := area.unwrap contwh
      let (w, h) := (w - wextra, h - hextra)
      if border.isManual && !(border_fit border padding w h) then
        (t, .error .BoundsNotRespected)
      else
        let (x0, y0) := hpos.point vpos contwh
        let x0 := if hpos = Pos.End then x0 - w - wextra else x0
        let y0 := if vpos = Pos.End then y0 - h - hextra else y0
        if value.length > w * h then
          (t, .error .BadValue)
        else
          let (ax0, ay0) := calc_text_abs_ori ⟨id.b0, id.b1⟩ (x0, y0) border padding cont
          let ne := Text.new id x0 y0 ax0 ay0 w h value border padding
          match cont.assign_valid_text_area ne with
          | .error _ => (t, .error .BoundsNotRespected)
          | .ok _ =>
            ({ t with containers := appendItemFirst t.containers ⟨id.b0, id.b1⟩ ne },
              .ok ())

/-- Modelled from the spec: the opaque nonedit-Text metadata/builder collaborator. -/
structure NonEditMeta where
  cid : Id2
  text : Text
  deriving DecidableEq, Repr

/-- `Term::nonedit_from_meta` — parent-existence check only, then push. -/
def Term.nonedit_from_meta (t : Term) (meta : NonEditMeta) :
    Term × Except ComponentTreeError Unit :=
  match t.container_ref meta.cid with
  | none => (t, .error .BadID)
  | some _ =>
    ({ t with containers := appendItemFirst t.containers meta.cid meta.text }, .ok ())

/-- `Term::sync_cursor` — resynchronize the terminal cursor from the focused node:
`self.focused.unwrap()`, look the node up by parity, `unwrap()` again, set
`cx, cy := ax0 + cx, ay0 + cy`. The Rust `Result` is always `Ok`; the outer
`Option` here models the two `unwrap` panics (`none` = panic). -/
def Term.sync_cursor (t : Term) : Option Term :=
  match t.focused with
  | none => none
  | some id =>
    match (if id.b2 % 2 == 0 then t.input_ref id else t.nonedit_ref id) with
    | none => none
    | some text => some { t with cx := text.ax0 + text.cx, cy := text.ay0 + text.cy }

/-- `Term::focus` — validate the address by parity-matched existence, set
`focused`, then `sync_cursor` (whose `Result` the source discards; its state
change and any panic still apply). `none` models a panic propagated out of
`sync_cursor`. -/
def Term.focus (t : Term) (id : Id3) :
    Option (Term × Except ComponentTreeError Unit) :=
  let condition := if id.b2 % 2 == 0 then t.has_input id else t.has_nonedit id
  if !condition then
    some (t, .error .BadID)
  else
    match Term.sync_cursor { t with focused := some id } with
    | none => none
    | some t' => some (t', .ok ())

/-- `Term::focused` (the query; renamed here because the field keeps the source
name) — the focused node's absolute origin, a `BadID` error when nothing is
focused; `none` models the `unwrap` panic on a dangling focus address. -/
def Term.focused_origin (t : Term) : Option (Except ComponentTreeError (Nat × Nat)) :=
  match t.focused with
  | none => some (.error .BadID)
  | some id =>
    if id.b2 % 2 == 0 then
      (t.input_ref id).map (fun x => .ok (x.ax0, x.ay0))
    else
      (t.nonedit_ref id).map (fun x => .ok (x.ax0, x.ay0))

/-- Scan core of `Term::assign_container_id`: walk the containers, bumping the
candidate while it matches, stop at the first gap. The `u8` increment wraps
mod 256 as in released Rust. -/
def assignContainerIdLoop : List Container → Nat → Nat
  | [], id => id
  | c :: rest, id =>
    if c.id.b1 == id then assignContainerIdLoop rest ((id + 1) % 256) else id

/-- `Term::assign_container_id` — first free container id assuming sorted,
gap-free insertion order; the `term` argument is unchecked, as in the source. -/
def Term.assign_container_id (t : Term) (term : Nat) : Nat :=
  assignContainerIdLoop t.containers 0

/-- Scan core of the Text id allocators: walk the parity-filtered items, bumping
the candidate by two while it matches, stop at the first gap (mod 256). -/
def assignItemIdLoop : List Text → Nat → Nat
  | [], id => id
  | i :: rest, id =>
    if i.id.b2 == id then assignItemIdLoop rest ((id + 2) % 256) else id

/-- `Term::assign_input_id` — scans only the even-parity items of the container,
starting at 0 in steps of two; `none` models the `unwrap` panic when the
container ids are invalid. -/
def Term.assign_input_id (t : Term) (term cont : Nat) : Option Nat :=
  (t.container_ref ⟨term, cont⟩).map
    (fun c => assignItemIdLoop (c.items.filter (fun i => i.id.b2 % 2 == 0)) 0)

/-- `Term::assign_nonedit_id` — scans only the odd-parity items, but starts its
candidate at 0 and steps by two, exactly as the source does. -/
def Term.assign_nonedit_id (t : Term) (term cont : Nat) : Option Nat :=
  (t.container_ref ⟨term, cont⟩).map
    (fun c => assignItemIdLoop (c.items.filter (fun i => i.id.b2 % 2 != 0)) 0)

/-! Concrete states used by the scenario theorems, counterexamples and witnesses. -/

/-- An input Text `[0,0,0]` at local origin (0,0), absolute origin (2,1), local
cursor offset (1,0), content 4×1. -/
def inp0 : Text :=
  { id := ⟨0, 0, 0⟩, x0 := 0, y0 := 0, ax0 := 2, ay0 := 1, cx := 1, cy := 0,
    w := 4, h := 1, border := .none, padding := .none, value := [],
    properties := [] }

/-- Container `[0,0]` at (0,0), content 10×5, no border/padding, holding `inp0`. -/
def cont0 : Container :=
  { id := ⟨0, 0⟩, x0 := 0, y0 := 0, w := 10, h := 5, border := .none,
    padding := .none, items := [inp0], properties := [], attributes := [] }

/-- An 80×24 Term holding `cont0`, nothing focused. -/
def T1 : Term := { Term.new 0 80 24 with containers := [cont0] }

/-- A nonedit Text `[0,0,1]` already committed in `T2`. -/
def neA : Text := Text.new ⟨0, 0, 1⟩ 0 2 0 2 4 1 [] .none .none

/-- A second, distinct nonedit Text carrying the same odd address `[0,0,1]`. -/
def neB : Text := Text.new ⟨0, 0, 1⟩ 5 3 5 3 3 1 [] .none .none

/-- Container `[0,0]` (10×5) holding the nonedit `neA`. -/
def contNE : Container := { Container.new ⟨0, 0⟩ 0 0 10 5 .none .none with items := [neA] }

/-- An 80×24 Term holding `contNE`. -/
def T2 : Term := { Term.new 0 80 24 with containers := [contNE] }

/-- Nonedit Texts with odd ids 1 and 3, the sorted gap-free odd class. -/
def neOdd1 : Text := Text.new ⟨0, 0, 1⟩ 0 0 0 0 3 1 [] .none .none

def neOdd3 : Text := Text.new ⟨0, 0, 3⟩ 0 2 0 2 3 1 [] .none .none

/-- Container `[0,0]` (10×5) holding nonedits with ids 1 and 3. -/
def contOdd : Container :=
  { Container.new ⟨0, 0⟩ 0 0 10 5 .none .none with items := [neOdd1, neOdd3] }

/-- An 80×24 Term holding `contOdd`. -/
def T3 : Term := { Term.new 0 80 24 with containers := [contOdd] }

/-- A Text carrying the address `[0,0,0]` that `assign_nonedit_id` hands out on
`T3` — its item id is even. -/
def evenAllocText : Text := Text.new ⟨0, 0, 0⟩ 0 4 0 4 3 1 [] .none .none

/-- An input Text `[0,0,2]` whose 500×500 rectangle at (1000,1000) lies far
outside its 10×5 parent container. -/
def outText : Text := Text.new ⟨0, 0, 2⟩ 1000 1000 1000 1000 500 500 [] .none .none

/-- An input Text `[0,0,2]` of content size 10×5 (capacity 50) carrying a
51-character value. -/
def bigText : Text :=
  Text.new ⟨0, 0, 2⟩ 0 0 0 0 10 5 (List.replicate 51 (some 'x')) .none .none

/-- Fresh 80×24 Term for the placement scenario. -/
def T0 : Term := Term.new 0 80 24

/-- Scenario step 1: Container `[0,0]`, start/start, declared 10×5, no border. -/
def step1 : Term × Except ComponentTreeError Unit :=
  T0.container ⟨0, 0⟩ .Start .Start .rect (.abs 10 5) .none .none

/-- Scenario step 2: Container `[0,1]`, start/start, declared 10×5 — identical
rectangle to step 1's. -/
def step2 : Term × Except ComponentTreeError Unit :=
  step1.1.container ⟨0, 1⟩ .Start .Start .rect (.abs 10 5) .none .none

/-- Scenario step 3: Container `[0,1]` again, x-anchor end instead. -/
def step3 : Term × Except ComponentTreeError Unit :=
  step1.1.container ⟨0, 1⟩ .Start .End .rect (.abs 10 5) .none .none

/-! The claims. -/

/-- C1: the address-uniqueness invariant is not preserved by `push_nonedit`: on a
Term whose container `[0,0]` already holds a nonedit with odd item id 1, pushing
a second nonedit with the same address `[0,0,1]` succeeds (the source's duplicate
test consults `has_input`, vacuous on an odd id), leaving two Text nodes with the
same item id in the odd parity class. -/
theorem C1_duplicate_nonedit_committed :
    (T2.push_nonedit neB).2 = Except.ok () ∧
    (T2.push_nonedit neB).1.containers.map (fun c => c.items.map (fun i => i.id)) =
      [[⟨0, 0, 1⟩, ⟨0, 0, 1⟩]] := by
  exact ⟨rfl, rfl⟩

/-- C3: the no-panic policy fails on `sync_cursor`: called on a freshly created
Term (nothing focused) it unwraps `focused = None` and panics (modelled by
`none`) instead of returning a state error. -/
theorem C3_sync_cursor_unfocused_panics :
    Term.sync_cursor (Term.new 0 80 24) = none := rfl

/-- C7: the concrete placement scenario on an 80×24 Term: Container `[0,0]` at
start/start with declared size 10×5 and no border commits rectangle (0,0,10,5);
Container `[0,1]` at start/start with the identical rectangle is rejected with a
space error and the Term is unchanged; the same container with x-anchor end
commits at rectangle (70,0,10,5). -/
theorem C7_placement_scenario :
    (step1.2 = Except.ok () ∧
      step1.1.containers.map (fun c => (c.id, c.x0, c.y0, c.w, c.h)) =
        [(⟨0, 0⟩, 0, 0, 10, 5)]) ∧
    (step2.2 = Except.error ComponentTreeError.BoundsNotRespected ∧
      step2.1 = step1.1) ∧
    (step3.2 = Except.ok () ∧
      step3.1.containers.map (fun c => (c.id, c.x0, c.y0, c.w, c.h)) =
        [(⟨0, 0⟩, 0, 0, 10, 5), (⟨0, 1⟩, 70, 0, 10, 5)]) := by
  exact ⟨⟨rfl, rfl⟩, ⟨rfl, rfl⟩, ⟨rfl, rfl⟩⟩

/-- C8: the nonedit id allocator is broken: on a container whose odd (nonedit)
class holds exactly the sorted gap-free ids 1 and 3, `assign_nonedit_id` returns
0 — an even, input-parity id (its scan compares odd item ids against candidates
0, 2, 4, …, so the very first comparison breaks) — and `push_nonedit` itself
rejects a Text carrying that allocated address for its parity. -/
theorem C8_nonedit_allocator_returns_even_id :
    T3.assign_nonedit_id 0 0 = some 0 ∧
    (T3.push_nonedit evenAllocText).2 =
      Except.error (evenAllocText, ComponentTreeError.BadID) := by
  exact ⟨rfl, rfl⟩

/-- C2 counterexample: `push_input` commits a pre-built input Text whose
rectangle grossly violates the parent container's bounds — the bounds/overlap
validation the claim requires is not re-run (the sibling-validation function
itself rejects this node). -/
theorem C2_push_input_skips_bounds_check :
    (T1.push_input outText).2 = Except.ok () ∧
    cont0.assign_valid_text_area outText = Except.error SpaceError.AreaOutOfBounds ∧
    (T1.push_input outText).1.has_input ⟨0, 0, 2⟩ = true := by
  exact ⟨rfl, rfl, rfl⟩

/-- C6 counterexample: a pre-built input Text carrying a 51-character value is
committed unchanged into the 10×5 (capacity 50) container `[0,0]` by
`push_input` — no capacity rejection occurs. -/
theorem C6_push_input_skips_capacity_check :
    bigText.value.length = 51 ∧
    bigText.w * bigText.h = 50 ∧
    (T1.push_input bigText).2 = Except.ok () ∧
    (T1.push_input bigText).1.has_input ⟨0, 0, 2⟩ = true := by
  exact ⟨rfl, rfl, rfl, rfl⟩

/-! Helper lemmas shared by the claim theorems. -/

lemma has_input_eq_isSome (t : Term) (a : Id3) :
    t.has_input a = (t.input_ref a).isSome := by
  unfold Term.has_input Term.input_ref
  cases t.container_ref ⟨a.b0, a.b1⟩ <;> rfl

lemma has_nonedit_eq_isSome (t : Term) (a : Id3) :
    t.has_nonedit a = (t.nonedit_ref a).isSome := by
  unfold Term.has_nonedit Term.nonedit_ref
  cases t.container_ref ⟨a.b0, a.b1⟩ <;> rfl

lemma input_ref_set_focused (t : Term) (o : Option Id3) (a : Id3) :
    ({ t with focused := o } : Term).input_ref a = t.input_ref a := rfl

lemma nonedit_ref_set_focused (t : Term) (o : Option Id3) (a : Id3) :
    ({ t with focused := o } : Term).nonedit_ref a = t.nonedit_ref a := rfl

/-- The parity-matched lookup that `sync_cursor` performs for an address. -/
def lookupByParity (t : Term) (a : Id3) : Option Text :=
  if a.b2 % 2 == 0 then t.input_ref a else t.nonedit_ref a

/-- The parity-matched existence condition that `focus` checks. -/
def focusCondition (t : Term) (a : Id3) : Bool :=
  if a.b2 % 2 == 0 then t.has_input a else t.has_nonedit a

lemma focusCondition_lookup (t : Term) (a : Id3)
    (h : focusCondition t a = true) : ∃ tx, lookupByParity t a = some tx := by
  unfold focusCondition at h
  unfold lookupByParity
  by_cases hp : (a.b2 % 2 == 0) = true
  · rw [if_pos hp] at h ⊢
    rw [has_input_eq_isSome] at h
    exact Option.isSome_iff_exists.mp h
  · rw [if_neg hp] at h ⊢
    rw [has_nonedit_eq_isSome] at h
    exact Option.isSome_iff_exists.mp h

lemma focus_of_condition_false (t : Term) (a : Id3)
    (h : focusCondition t a = false) :
    t.focus a = some (t, Except.error ComponentTreeError.BadID) := by
  unfold Term.focus
  unfold focusCondition at h
  rw [h]
  rfl

/-- The Term state after a successful `focus(a)` that landed on node `tx`. -/
def focusedState (t : Term) (a : Id3) (tx : Text) : Term :=
  { t with
      focused := some a,
      cx := tx.ax0 + tx.cx,
      cy := tx.ay0 + tx.cy }

lemma focus_of_lookup (t : Term) (a : Id3) (tx : Text)
    (hc : focusCondition t a = true) (hl : lookupByParity t a = some tx) :
    t.focus a = some (focusedState t a tx, Except.ok ()) := by
  unfold Term.focus
  unfold focusCondition at hc
  rw [hc]
  show (match Term.sync_cursor { t with focused := some a } with
    | none => none
    | some t' => some (t', Except.ok ())) = _
  have hsync : Term.sync_cursor { t with focused := some a } =
      some (focusedState t a tx) := by
    unfold Term.sync_cursor
    show (match (if a.b2 % 2 == 0 then
        ({ t with focused := some a } : Term).input_ref a
      else ({ t with focused := some a } : Term).nonedit_ref a) with
      | none => none
      | some text => some (focusedState t a text)) = _
    rw [input_ref_set_focused, nonedit_ref_set_focused]
    unfold lookupByParity at hl
    rw [hl]
  rw [hsync]

/-- C10: `has_input` and `has_nonedit` are total and parity-filtered: an address
whose two-byte prefix matches no container yields `false` (no unknown-parent
error), an odd item id can never satisfy `has_input`, and an even item id can
never satisfy `has_nonedit`, whatever nodes exist. -/
theorem C10_lookup_totality (t : Term) (a : Id3) :
    (t.has_container ⟨a.b0, a.b1⟩ = false →
      t.has_input a = false ∧ t.has_nonedit a = false) ∧
    (a.b2 % 2 = 1 → t.has_input a = false) ∧
    (a.b2 % 2 = 0 → t.has_nonedit a = false) := by
  refine ⟨?_, ?_, ?_⟩
  · intro h
    unfold Term.has_container at h
    unfold Term.has_input Term.has_nonedit Term.container_ref
    cases hfind : t.containers.find? (fun c => c.id == (⟨a.b0, a.b1⟩ : Id2)) with
    | none => exact ⟨rfl, rfl⟩
    | some c =>
      rw [hfind] at h
      simp at h
  · intro h
    unfold Term.has_input
    cases hc : t.container_ref ⟨a.b0, a.b1⟩ with
    | none => rfl
    | some cont =>
      have hnone : cont.items.find? (fun i => i.id.b2 % 2 == 0 && i.id == a) = none := by
        rw [List.find?_eq_none]
        intro x hx hpx
        simp only [Bool.and_eq_true, beq_iff_eq] at hpx
        have h0 : a.b2 % 2 = 0 := by
          rw [← hpx.2]
          exact hpx.1
        omega
      simp [hnone]
  · intro h
    unfold Term.has_nonedit
    cases hc : t.container_ref ⟨a.b0, a.b1⟩ with
    | none => rfl
    | some cont =>
      simp [List.find?_eq_none]
      intro x hx hodd heq
      rw [heq] at hodd
      omega

/-- C10 witness: on `T1`, the address `[5,5,0]` has no matching container, and
both existence checks answer `false` rather than erroring. -/
theorem C10_lookup_totality_witness :
    T1.has_input ⟨5, 5, 0⟩ = false ∧ T1.has_nonedit ⟨5, 5, 0⟩ = false :=
  (C10_lookup_totality T1 ⟨5, 5, 0⟩).1 rfl

/-- C4: `focus(a)` succeeds iff a Text node at address `a` exists whose item-id
parity matches the requested kind (`focusCondition` is the source's
parity-dispatched `has_input`/`has_nonedit` test); and after success the Term's
cursor equals the focused node's cached absolute origin plus its local cursor
offset. -/
theorem C4_focus_consistency (t : Term) (a : Id3) :
    ((∃ t', t.focus a = some (t', Except.ok ())) ↔ focusCondition t a = true) ∧
    (∀ t', t.focus a = some (t', Except.ok ()) →
      ∃ tx, lookupByParity t a = some tx ∧ t'.focused = some a ∧
        t'.cx = tx.ax0 + tx.cx ∧ t'.cy = tx.ay0 + tx.cy) := by
  constructor
  · constructor
    · rintro ⟨t', h⟩
      by_contra hcond
      rw [Bool.not_eq_true] at hcond
      rw [focus_of_condition_false t a hcond] at h
      simp at h
    · intro hcond
      obtain ⟨tx, hl⟩ := focusCondition_lookup t a hcond
      exact ⟨_, focus_of_lookup t a tx hcond hl⟩
  · intro t' h
    by_cases hcond : focusCondition t a = true
    · obtain ⟨tx, hl⟩ := focusCondition_lookup t a hcond
      rw [focus_of_lookup t a tx hcond hl] at h
      have ht' : focusedState t a tx = t' := congrArg Prod.fst (Option.some.inj h)
      rw [← ht']
      exact ⟨tx, hl, rfl, rfl, rfl⟩
    · rw [Bool.not_eq_true] at hcond
      rw [focus_of_condition_false t a hcond] at h
      simp at h

/-- C4 witness: focusing the existing input `[0,0,0]` of `T1` succeeds. -/
theorem C4_focus_consistency_witness :
    ∃ t', T1.focus ⟨0, 0, 0⟩ = some (t', Except.ok ()) :=
  (C4_focus_consistency T1 ⟨0, 0, 0⟩).1.mpr rfl

/-- C9: `focus` touches at most the `focused`, `cx` and `cy` fields — layout,
id, dimensions, the containers (hence all geometry), properties and attributes
are unchanged by any outcome — and when it fails the whole Term, cursor fields
included, is exactly the pre-call state. -/
theorem C9_focus_frame (t : Term) (a : Id3) :
    (∀ t' r, t.focus a = some (t', r) →
      t'.layout = t.layout ∧ t'.id = t.id ∧ t'.w = t.w ∧ t'.h = t.h ∧
      t'.containers = t.containers ∧ t'.properties = t.properties ∧
      t'.attributes = t.attributes) ∧
    (∀ t' e, t.focus a = some (t', Except.error e) → t' = t) := by
  constructor
  · intro t' r h
    by_cases hcond : focusCondition t a = true
    · obtain ⟨tx, hl⟩ := focusCondition_lookup t a hcond
      rw [focus_of_lookup t a tx hcond hl] at h
      have ht' : focusedState t a tx = t' := congrArg Prod.fst (Option.some.inj h)
      rw [← ht']
      exact ⟨rfl, rfl, rfl, rfl, rfl, rfl, rfl⟩
    · rw [Bool.not_eq_true] at hcond
      rw [focus_of_condition_false t a hcond] at h
      have ht' : t = t' := congrArg Prod.fst (Option.some.inj h)
      rw [← ht']
      exact ⟨rfl, rfl, rfl, rfl, rfl, rfl, rfl⟩
  · intro t' e h
    by_cases hcond : focusCondition t a = true
    · obtain ⟨tx, hl⟩ := focusCondition_lookup t a hcond
      rw [focus_of_lookup t a tx hcond hl] at h
      have h2 : Except.ok () = Except.error e := congrArg Prod.snd (Option.some.inj h)
      exact Except.noConfusion h2
    · rw [Bool.not_eq_true] at hcond
      rw [focus_of_condition_false t a hcond] at h
      exact (congrArg Prod.fst (Option.some.inj h)).symm

/-- The state `focus [0,0,0]` reaches from `T1`: cursor at the input's absolute
origin (2,1) plus its local offset (1,0). -/
def TFoc : Term := { T1 with focused := some ⟨0, 0, 0⟩, cx := 3, cy := 1 }

/-- C9 witness: the successful focus on `T1` changed none of the frame fields. -/
theorem C9_focus_frame_witness :
    TFoc.layout = T1.layout ∧ TFoc.id = T1.id ∧ TFoc.w = T1.w ∧ TFoc.h = T1.h ∧
    TFoc.containers = T1.containers ∧ TFoc.properties = T1.properties ∧
    TFoc.attributes = T1.attributes :=
  (C9_focus_frame T1 ⟨0, 0, 0⟩).1 TFoc (Except.ok ()) rfl

lemma container_cases (t : Term) (id : Id2) (vp hp : Pos) (sh : Polygon)
    (ar : Area) (b : Border) (p : Padding) :
    (∃ c', t.container id vp hp sh ar b p =
      ({ t with containers := t.containers ++ [c'] }, Except.ok ())) ∨
    (∃ e, t.container id vp hp sh ar b p = (t, Except.error e)) := by
  unfold Term.container
  repeat' first
    | (exact Or.inl ⟨_, rfl⟩)
    | (exact Or.inr ⟨_, rfl⟩)
    | split
    | dsimp only

lemma input_cases (t : Term) (id : Id3) (vp hp : Pos) (sh : Polygon)
    (ar : Area) (b : Border) (p : Padding) :
    (∃ tx, t.input id vp hp sh ar b p =
      ({ t with containers := appendItemFirst t.containers ⟨id.b0, id.b1⟩ tx },
        Except.ok ())) ∨
    (∃ e, t.input id vp hp sh ar b p = (t, Except.error e)) := by
  unfold Term.input
  repeat' first
    | (exact Or.inl ⟨_, rfl⟩)
    | (exact Or.inr ⟨_, rfl⟩)
    | split
    | dsimp only

lemma nonedit_cases (t : Term) (id : Id3) (vp hp : Pos) (sh : Polygon)
    (ar : Area) (b : Border) (p : Padding) (val : List (Option Char)) :
    (∃ tx, t.nonedit id vp hp sh ar b p val =
      ({ t with containers := appendItemFirst t.containers ⟨id.b0, id.b1⟩ tx },
        Except.ok ())) ∨
    (∃ e, t.nonedit id vp hp sh ar b p val = (t, Except.error e)) := by
  unfold Term.nonedit
  repeat' first
    | (exact Or.inl ⟨_, rfl⟩)
    | (exact Or.inr ⟨_, rfl⟩)
    | split
    | dsimp only

lemma push_container_cases (t : Term) (c : Container) :
    (t.push_container c =
      ({ t with containers := t.containers ++ [c] }, Except.ok ())) ∨
    (∃ e, t.push_container c = (t, Except.error (c, e))) := by
  unfold Term.push_container
  repeat' first
    | (exact Or.inl rfl)
    | (exact Or.inr ⟨_, rfl⟩)
    | split

lemma push_input_cases (t : Term) (i : Text) :
    (t.push_input i =
      ({ t with containers := appendItemFirst t.containers ⟨i.id.b0, i.id.b1⟩ i },
        Except.ok ())) ∨
    (t.push_input i = (t, Except.error (i, ComponentTreeError.BadID))) := by
  unfold Term.push_input
  repeat' first
    | (exact Or.inl rfl)
    | (exact Or.inr rfl)
    | split

lemma push_nonedit_cases (t : Term) (ne : Text) :
    (t.push_nonedit ne =
      ({ t with containers := appendItemFirst t.containers ⟨ne.id.b0, ne.id.b1⟩ ne },
        Except.ok ())) ∨
    (t.push_nonedit ne = (t, Except.error (ne, ComponentTreeError.BadID))) := by
  unfold Term.push_nonedit
  repeat' first
    | (exact Or.inl rfl)
    | (exact Or.inr rfl)
    | split

/-- C5: placement atomicity — every placement operation either appends the new
node to the right owned collection and returns success, or returns an error
leaving the whole Term exactly as it was; and every failed pre-built insertion
hands the rejected node itself back alongside the error. -/
theorem C5_placement_atomicity (t : Term) (cid : Id2) (tid : Id3) (vp hp : Pos)
    (sh : Polygon) (ar : Area) (b : Border) (p : Padding)
    (val : List (Option Char)) (c : Container) (i ne : Text) :
    ((t.container cid vp hp sh ar b p).2 ≠ Except.ok () →
      (t.container cid vp hp sh ar b p).1 = t) ∧
    ((t.container cid vp hp sh ar b p).2 = Except.ok () →
      ∃ c', (t.container cid vp hp sh ar b p).1 =
        { t with containers := t.containers ++ [c'] }) ∧
    ((t.input tid vp hp sh ar b p).2 ≠ Except.ok () →
      (t.input tid vp hp sh ar b p).1 = t) ∧
    ((t.input tid vp hp sh ar b p).2 = Except.ok () →
      ∃ tx, (t.input tid vp hp sh ar b p).1 =
        { t with containers := appendItemFirst t.containers ⟨tid.b0, tid.b1⟩ tx }) ∧
    ((t.nonedit tid vp hp sh ar b p val).2 ≠ Except.ok () →
      (t.nonedit tid vp hp sh ar b p val).1 = t) ∧
    ((t.nonedit tid vp hp sh ar b p val).2 = Except.ok () →
      ∃ tx, (t.nonedit tid vp hp sh ar b p val).1 =
        { t with containers := appendItemFirst t.containers ⟨tid.b0, tid.b1⟩ tx }) ∧
    (∀ c' e, (t.push_container c).2 = Except.error (c', e) →
      (t.push_container c).1 = t ∧ c' = c) ∧
    ((t.push_container c).2 = Except.ok () →
      (t.push_container c).1 = { t with containers := t.containers ++ [c] }) ∧
    (∀ i' e, (t.push_input i).2 = Except.error (i', e) →
      (t.push_input i).1 = t ∧ i' = i) ∧
    ((t.push_input i).2 = Except.ok () →
      (t.push_input i).1 =
        { t with containers := appendItemFirst t.containers ⟨i.id.b0, i.id.b1⟩ i }) ∧
    (∀ ne' e, (t.push_nonedit ne).2 = Except.error (ne', e) →
      (t.push_nonedit ne).1 = t ∧ ne' = ne) ∧
    ((t.push_nonedit ne).2 = Except.ok () →
      (t.push_nonedit ne).1 =
        { t with containers := appendItemFirst t.containers ⟨ne.id.b0, ne.id.b1⟩ ne })
    := by
  refine ⟨?_, ?_, ?_, ?_, ?_, ?_, ?_, ?_, ?_, ?_, ?_, ?_⟩
  · intro hne
    rcases container_cases t cid vp hp sh ar b p with ⟨c', hc⟩ | ⟨e, hc⟩
    · rw [hc] at hne
      exact absurd rfl hne
    · rw [hc]
  · intro hok
    rcases container_cases t cid vp hp sh ar b p with ⟨c', hc⟩ | ⟨e, hc⟩
    · exact ⟨c', by rw [hc]⟩
    · rw [hc] at hok
      exact Except.noConfusion hok
  · intro hne
    rcases input_cases t tid vp hp sh ar b p with ⟨tx, hc⟩ | ⟨e, hc⟩
    · rw [hc] at hne
      exact absurd rfl hne
    · rw [hc]
  · intro hok
    rcases input_cases t tid vp hp sh ar b p with ⟨tx, hc⟩ | ⟨e, hc⟩
    · exact ⟨tx, by rw [hc]⟩
    · rw [hc] at hok
      exact Except.noConfusion hok
  · intro hne
    rcases nonedit_cases t tid vp hp sh ar b p val with ⟨tx, hc⟩ | ⟨e, hc⟩
    · rw [hc] at hne
      exact absurd rfl hne
    · rw [hc]
  · intro hok
    rcases nonedit_cases t tid vp hp sh ar b p val with ⟨tx, hc⟩ | ⟨e, hc⟩
    · exact ⟨tx, by rw [hc]⟩
    · rw [hc] at hok
      exact Except.noConfusion hok
  · intro c' e h
    rcases push_container_cases t c with hc | ⟨e0, hc⟩
    · rw [hc] at h
      exact Except.noConfusion h
    · rw [hc] at h
      have h2 : (c, e0) = (c', e) := Except.error.inj h
      exact ⟨by rw [hc], (congrArg Prod.fst h2).symm⟩
  · intro hok
    rcases push_container_cases t c with hc | ⟨e0, hc⟩
    · rw [hc]
    · rw [hc] at hok
      exact Except.noConfusion hok
  · intro i' e h
    rcases push_input_cases t i with hc | hc
    · rw [hc] at h
      exact Except.noConfusion h
    · rw [hc] at h
      have h2 : (i, ComponentTreeError.BadID) = (i', e) := Except.error.inj h
      exact ⟨by rw [hc], (congrArg Prod.fst h2).symm⟩
  · intro hok
    rcases push_input_cases t i with hc | hc
    · rw [hc]
    · rw [hc] at hok
      exact Except.noConfusion hok
  · intro ne' e h
    rcases push_nonedit_cases t ne with hc | hc
    · rw [hc] at h
      exact Except.noConfusion h
    · rw [hc] at h
      have h2 : (ne, ComponentTreeError.BadID) = (ne', e) := Except.error.inj h
      exact ⟨by rw [hc], (congrArg Prod.fst h2).symm⟩
  · intro hok
    rcases push_nonedit_cases t ne with hc | hc
    · rw [hc]
    · rw [hc] at hok
      exact Except.noConfusion hok

/-- C5 witness: pushing a duplicate of `T1`'s own container is rejected with the
container handed back, and the Term is exactly unchanged. -/
theorem C5_placement_atomicity_witness :
    (T1.push_container cont0).1 = T1 ∧ cont0 = cont0 :=
  (C5_placement_atomicity T1 ⟨0, 0⟩ ⟨0, 0, 0⟩ Pos.Start Pos.Start Polygon.rect
    (Area.abs 1 1) Border.none Padding.none [] cont0 inp0 neA).2.2.2.2.2.2.1
    cont0 ComponentTreeError.IDAlreadyExists rfl

lemma push_input_ok_iff (t : Term) (i : Text) :
    (t.push_input i).2 = Except.ok () ↔
      t.has_container ⟨i.id.b0, i.id.b1⟩ = true ∧ t.has_input i.id = false ∧
        i.id.b2 % 2 = 0 := by
  unfold Term.push_input
  cases h1 : t.has_container ⟨i.id.b0, i.id.b1⟩ <;>
    cases h2 : t.has_input i.id <;>
      rcases Nat.mod_two_eq_zero_or_one i.id.b2 with h3 | h3 <;>
        simp [h1, h2, h3]

lemma push_nonedit_ok_iff (t : Term) (ne : Text) :
    (t.push_nonedit ne).2 = Except.ok () ↔
      t.has_container ⟨ne.id.b0, ne.id.b1⟩ = true ∧ t.has_input ne.id = false ∧
        ne.id.b2 % 2 = 1 := by
  unfold Term.push_nonedit
  cases h1 : t.has_container ⟨ne.id.b0, ne.id.b1⟩ <;>
    cases h2 : t.has_input ne.id <;>
      rcases Nat.mod_two_eq_zero_or_one ne.id.b2 with h3 | h3 <;>
        simp [h1, h2, h3]

lemma push_container_ok_iff (t : Term) (c : Container) :
    (t.push_container c).2 = Except.ok () ↔
      t.has_container c.id = false ∧
        t.assign_valid_container_area c = Except.ok () := by
  cases h1 : t.has_container c.id with
  | true => simp [Term.push_container, h1]
  | false =>
    cases h2 : t.assign_valid_container_area c with
    | error e => simp [Term.push_container, h1, h2]
    | ok u =>
      cases u
      simp [Term.push_container, h1, h2]

/-- C2: which checks the pre-built insertions actually re-run — `push_container`
commits iff the duplicate-id check and the full bounds/overlap validation both
pass, while `push_input` and `push_nonedit` commit iff the existence/parity id
checks alone pass (no bounds or overlap re-validation occurs; note
`push_nonedit`'s duplicate test consults the input class). -/
theorem C2_prebuilt_check_profile (t : Term) (c : Container) (i ne : Text) :
    ((t.push_container c).2 = Except.ok () ↔
      t.has_container c.id = false ∧
        t.assign_valid_container_area c = Except.ok ()) ∧
    ((t.push_input i).2 = Except.ok () ↔
      t.has_container ⟨i.id.b0, i.id.b1⟩ = true ∧ t.has_input i.id = false ∧
        i.id.b2 % 2 = 0) ∧
    ((t.push_nonedit ne).2 = Except.ok () ↔
      t.has_container ⟨ne.id.b0, ne.id.b1⟩ = true ∧ t.has_input ne.id = false ∧
        ne.id.b2 % 2 = 1) :=
  ⟨push_container_ok_iff t c, push_input_ok_iff t i, push_nonedit_ok_iff t ne⟩

/-- C2 witness: the out-of-bounds input of the counterexample is committed
because the id checks alone pass. -/
theorem C2_prebuilt_check_profile_witness :
    (T1.push_input outText).2 = Except.ok () :=
  ((C2_prebuilt_check_profile T1 cont0 outText neA).2.1).mpr ⟨rfl, rfl, rfl⟩

lemma nonedit_ok_capacity (t : Term) (id : Id3) (vp hp : Pos) (sh : Polygon)
    (ar : Area) (b : Border) (p : Padding) (val : List (Option Char)) :
    (t.nonedit id vp hp sh ar b p val).2 = Except.ok () →
    ∃ tx, tx.value = val ∧ tx.value.length ≤ tx.w * tx.h ∧
      (t.nonedit id vp hp sh ar b p val).1 =
        { t with containers := appendItemFirst t.containers ⟨id.b0, id.b1⟩ tx } := by
  unfold Term.nonedit
  repeat' first
    | split
    | dsimp only
  all_goals first
    | exact fun hok => Except.noConfusion hok
    | refine fun hok => ⟨_, ?_, ?_, rfl⟩
  all_goals first
    | rfl
    | (dsimp only [Text.new]
       omega)

lemma push_input_ok_value_blind (t : Term) (i : Text) (v : List (Option Char)) :
    ((t.push_input i).2 = Except.ok ()) ↔
      ((t.push_input { i with value := v }).2 = Except.ok ()) := by
  rw [push_input_ok_iff, push_input_ok_iff]

lemma push_nonedit_ok_value_blind (t : Term) (ne : Text) (v : List (Option Char)) :
    ((t.push_nonedit ne).2 = Except.ok ()) ↔
      ((t.push_nonedit { ne with value := v }).2 = Except.ok ()) := by
  rw [push_nonedit_ok_iff, push_nonedit_ok_iff]

/-- C6: where capacity is actually enforced — a Text committed by the
declarative `nonedit` constructor always satisfies `value.length ≤ w * h`
(the check runs before commit), while the pre-built insertions are blind to the
value entirely: replacing a node's value by one of any length never changes
whether `push_input`/`push_nonedit` succeed, so no capacity bound is enforced on
them (the declarative `input` constructor only ever commits an empty value). -/
theorem C6_capacity_profile (t : Term) (id : Id3) (vp hp : Pos) (sh : Polygon)
    (ar : Area) (b : Border) (p : Padding) (val : List (Option Char))
    (i ne : Text) (v : List (Option Char)) :
    ((t.nonedit id vp hp sh ar b p val).2 = Except.ok () →
      ∃ tx, tx.value = val ∧ tx.value.length ≤ tx.w * tx.h ∧
        (t.nonedit id vp hp sh ar b p val).1 =
          { t with containers := appendItemFirst t.containers ⟨id.b0, id.b1⟩ tx }) ∧
    (((t.push_input i).2 = Except.ok ()) ↔
      ((t.push_input { i with value := v }).2 = Except.ok ())) ∧
    (((t.push_nonedit ne).2 = Except.ok ()) ↔
      ((t.push_nonedit { ne with value := v }).2 = Except.ok ())) :=
  ⟨nonedit_ok_capacity t id vp hp sh ar b p val,
    push_input_ok_value_blind t i v, push_nonedit_ok_value_blind t ne v⟩

/-- C6 witness: a concrete nonedit commit on `T1` — the committed node carries
the one-character value and respects its 3×1 capacity. -/
theorem C6_capacity_profile_witness :
    ∃ tx, tx.value = [some 'z'] ∧ tx.value.length ≤ tx.w * tx.h ∧
      (T1.nonedit ⟨0, 0, 3⟩ .End .Start .rect (.abs 3 1) .none .none [some 'z']).1 =
        { T1 with containers := appendItemFirst T1.containers ⟨0, 0⟩ tx } :=
  (C6_capacity_profile T1 ⟨0, 0, 3⟩ .End .Start .rect (.abs 3 1) .none .none
    [some 'z'] inp0 neA []).1 rfl

end Ragout
